import Mathlib

/-!
Verification development for the `clinfo` OpenCL information dumper.

The repository contains three near-identical program variants:
`src/main.cpp` (class `CLinfo`), `src/unnamed/part_000` (class `CL_info`,
the variant built by the Makefile together with `main.cpp`), and
`src/clinfo.c` (plain C).  The definitions below are shallow embeddings of
the pure computations and of the table-driven property walks of those
programs.  Runtime calls (`clGetDeviceInfo`, `clGetPlatformInfo`,
`clCreateContext`, ...) are modelled as oracle functions returning either a
status code or a value together with the runtime-reported size, exactly the
information the C code receives.  Standard output and standard error are
modelled as lists of emitted strings.
-/

namespace Clinfo

/-- Decimal digit character, as produced by `std::to_string` / `printf %d`:
the character with code `48 + d` for a digit value `d < 10`. -/
def digitChar (d : Nat) : Char := Char.ofNat (48 + d)

/-- Accumulator loop of decimal rendering of a natural number: peels digits
from the least significant end, exactly the digit sequence `std::to_string`
and `printf("%d"/"%ld"/"%lu")` produce. -/
def natDecAux (n : Nat) (acc : List Char) : List Char :=
  if n < 10 then digitChar n :: acc
  else natDecAux (n / 10) (digitChar (n % 10) :: acc)
termination_by n
decreasing_by exact Nat.div_lt_self (by omega) (by omega)

/-- Decimal digit characters of `n`, most significant first. -/
def natDec (n : Nat) : List Char := natDecAux n []

/-- Decimal rendering of a natural number as a string
(`std::to_string(uint64_t)` / `printf %lu`). -/
def natDecStr (n : Nat) : String := String.mk (natDec n)

/-- Decimal rendering of a signed integer (`printf %d` on `cl_int`):
a minus sign followed by the digits of the absolute value for negatives. -/
def intDec (e : Int) : List Char :=
  if e < 0 then '-' :: natDec e.natAbs else natDec e.natAbs

/-- String form of `intDec`. -/
def intDecStr (e : Int) : String := String.mk (intDec e)

/-- Lowercase hexadecimal digit character (`printf %lx` / `std::hex`). -/
def hexDigitChar (d : Nat) : Char :=
  if d < 10 then Char.ofNat (48 + d) else Char.ofNat (87 + d)

/-- Accumulator loop of lowercase hexadecimal rendering. -/
def natHexAux (n : Nat) (acc : List Char) : List Char :=
  if n < 16 then hexDigitChar n :: acc
  else natHexAux (n / 16) (hexDigitChar (n % 16) :: acc)
termination_by n
decreasing_by exact Nat.div_lt_self (by omega) (by omega)

/-- Lowercase hexadecimal rendering of a natural number, no prefix
(`printf("%lx", v)` / `cout << hex << v`). -/
def natHexStr (n : Nat) : String := String.mk (natHexAux n [])

/-- Error table of `cl_strerror` (`src/main.cpp:117-133`,
`src/clinfo.c:79-96`): the fifteen known OpenCL status codes, each paired
with its fixed phrase, in declared order.  The numeric codes are the values
of the `CL_*` constants from `CL/cl.h`. -/
def error_table : List (Int × String) :=
  [(0, "no error"),
   (-1, "device not found"),
   (-2, "device not available"),
   (-3, "compiler not available"),
   (-4, "mem object allocation failure"),
   (-5, "out of resources"),
   (-6, "out of host memory"),
   (-7, "profiling not available"),
   (-8, "memcopy overlaps"),
   (-9, "image format mismatch"),
   (-10, "image format not supported"),
   (-11, "build program failed"),
   (-12, "map failed"),
   (-30, "invalid value"),
   (-31, "invalid device type")]

/-- Linear scan of the error table, first match wins, mirroring the
`for`/`if` loop of `cl_strerror`. -/
def lookupMsg : List (Int × String) → Int → Option String
  | [], _ => none
  | (c, m) :: rest, e => if c = e then some m else lookupMsg rest e

/-- Fallback text of `cl_strerror`:
`snprintf(unknown, sizeof unknown, "unknown error %d", error)` with
`static char unknown[25]` keeps at most 24 characters of the formatted
text (one byte is reserved for the terminating NUL). -/
def unknownText (e : Int) : String :=
  String.mk (("unknown error ".data ++ intDec e).take 24)

/-- Status translator `cl_strerror` (`src/main.cpp:115-142`,
`src/clinfo.c:76-106`, `src/unnamed/part_000:114-140` as `cl_error_str`):
scan the table for the code, fall back to the truncated
`"unknown error <N>"` text. -/
def cl_strerror (e : Int) : String :=
  match lookupMsg error_table e with
  | some m => m
  | none => unknownText e

/-- Conditional zero padding of the last-stripped digit group inside
`format_long`: `(x < 100 ? (x < 10 ? string("00") + r : string("0") + r) : r)`. -/
def padGroup (x : Nat) (r : String) : String :=
  if x < 100 then (if x < 10 then "00" ++ r else "0" ++ r) else r

/-- The `while (val > 999)` loop of `format_long`
(`src/main.cpp:144-154`, `src/unnamed/part_000:142-152`): each iteration
strips the low base-1000 group `x = val % 1000`, divides `val` by 1000,
and prepends `to_string(val % 1000) + "," +` the zero-padded previous text. -/
def format_long_loop (val : Nat) (r : String) : String :=
  if 999 < val then
    format_long_loop (val / 1000)
      (natDecStr (val / 1000 % 1000) ++ "," ++ padGroup (val % 1000) r)
  else r
termination_by val
decreasing_by exact Nat.div_lt_self (by omega) (by omega)

/-- Numeric formatter `format_long` (`src/main.cpp:144-154`): starts from
`to_string(val % 1000)` and runs the grouping loop. -/
def format_long (val : Nat) : String :=
  format_long_loop val (natDecStr (val % 1000))

/-- Whitespace test of `operator>>(istream, string)`: the characters the
"C" locale `isspace` accepts. -/
def isWS (c : Char) : Bool :=
  c = ' ' || c = '\t' || c = '\n' || c = '\r' || c = '\x0b' || c = '\x0c'

/-- Splits a character list into maximal runs of non-separator characters,
dropping separators: the token stream `while (ss >> word)` produces (with
`isWS`), and the token stream of repeated `strtok(..., " ")` (with `(· = ' ')`). -/
def splitTokens (p : Char → Bool) (l : List Char) : List (List Char) :=
  (l.foldr
    (fun c acc =>
      if p c then [] :: acc
      else
        match acc with
        | [] => [[c]]
        | t :: ts => (c :: t) :: ts)
    []).filter (fun t => t ≠ [])

/-- Byte-wise lexicographic `<` of `std::string` (all extension tokens are
ASCII, so character order and byte order agree). -/
def strLtB : List Char → List Char → Bool
  | [], [] => false
  | [], _ :: _ => true
  | _ :: _, [] => false
  | a :: as, b :: bs => if a < b then true else if b < a then false else strLtB as bs

/-- Insertion into a sorted token list, realising the order produced by
`sort(words.begin(), words.end())`. -/
def insertTok (w : List Char) : List (List Char) → List (List Char)
  | [] => [w]
  | x :: xs => if strLtB x w then x :: insertTok w xs else w :: x :: xs

/-- Sorting of the token vector by `std::sort` with `std::string::operator<`. -/
def sortToks : List (List Char) → List (List Char)
  | [] => []
  | w :: ws => insertTok w (sortToks ws)

/-- Indent emitted before each subsequent word: `cout << setw(width) << " "`
pads the one-space string to `width` columns (at least one space is always
written), and `printf("%Ns %s", "", word)` with `N = width - 1` produces the
same `width` spaces. -/
def indentSpaces (width : Nat) : List Char :=
  List.replicate (width - 1) ' ' ++ [' ']

/-- Word-list renderer `print_extensions` (`src/main.cpp:244-256`,
`src/unnamed/part_000:248-260`): tokenize on whitespace, sort, then print
`words[0]` and every later word on its own line behind the indent.
Accessing `words[0]` of an empty vector is out of bounds; the embedding
returns `none` there. -/
def print_extensions (buf : String) (width : Nat) : Option (List String) :=
  match sortToks (splitTokens isWS buf.data) with
  | [] => none
  | w :: ws =>
    some (String.mk w :: ws.map (fun t => String.mk (indentSpaces width ++ t)))

/-- Source-order word-list rendering of the C variant
(`src/clinfo.c:299-308` and `:478-487`): `strtok(buf, " ")` tokens in
source order, first word on the current line, later words indented by
`printf("%Ns %s", "", word)`; the hard-coded field width (42 resp. 24) is
exposed here as `width - 1`.  `strtok` returning `NULL` for a token-free
string makes the first `%s` print `(null)`; the embedding returns `none`
for that degenerate case. -/
def print_extensions_seq (buf : String) (width : Nat) : Option (List String) :=
  match splitTokens (fun c => c = ' ') buf.data with
  | [] => none
  | w :: ws =>
    some (String.mk w :: ws.map (fun t => String.mk (indentSpaces width ++ t)))

/-- Left-justified field of `width` columns: `cout << left << setw(w)` /
`printf("%-Ns", s)` pad the text on the right with spaces (never truncate). -/
def padRight (s : String) (w : Nat) : String :=
  s ++ String.mk (List.replicate (w - s.length) ' ')

/-- Right-justified field of `width` columns (`printf("%Nx", v)` padding). -/
def padLeft (s : String) (w : Nat) : String :=
  String.mk (List.replicate (w - s.length) ' ') ++ s

/-- One row of a property table: a runtime property identifier paired with
its display name (`struct {cl_device_info param; const char* name;}`). -/
structure PropDescr where
  param : Nat
  name : String

/-- Head of every device property line:
`"device[" << device_index << "]: " << left << setw(30) << name << ": "`. -/
def devLineHead (di : Nat) (name : String) : String :=
  "device[" ++ natDecStr di ++ "]: " ++ padRight name 30 ++ ": "

/-- Device-walk failure diagnostic:
`"device[%d]: Unable to get %s: %s!\n"` (`src/main.cpp:382`). -/
def errLineDev (di : Nat) (name : String) (e : Int) : String :=
  "device[" ++ natDecStr di ++ "]: Unable to get " ++ name ++ ": " ++ cl_strerror e ++ "!"

/-- Device-walk truncation warning:
`"device[%d]: Large %s (%ld bytes)!  Truncating to %ld!\n"` (`src/main.cpp:387`). -/
def truncLineDev (di : Nat) (name : String) (size cap : Nat) : String :=
  "device[" ++ natDecStr di ++ "]: Large " ++ name ++ " (" ++ natDecStr size ++
    " bytes)!  Truncating to " ++ natDecStr cap ++ "!"

/-- Per-descriptor body of the table walks that use the `continue` pattern
(`src/main.cpp:377-394`, `447-475`, `src/clinfo.c:287-309`, `396-424`,
`466-488`): a failed query emits one diagnostic and skips the render; a
successful query first emits a truncation warning when the reported size
exceeds the buffer capacity and then renders the value either way.  `none`
models the out-of-bounds vector access a renderer can perform. -/
def tableStep {α : Type} (render : PropDescr → α → Option (List String))
    (mkErr : PropDescr → Int → String) (mkWarn : PropDescr → Nat → Nat → String)
    (cap : Nat) (d : PropDescr) (reply : Except Int (α × Nat)) :
    Option (List String × List String) :=
  match reply with
  | .error e => some ([], [mkErr d e])
  | .ok (v, s) =>
    match render d v with
    | none => none
    | some lines => some (lines, if cap < s then [mkWarn d s cap] else [])

/-- Property table walker: the `for (ii = 0; table[ii].name != NULL; ++ii)`
loop running `tableStep` on each descriptor in declared order, concatenating
the stdout and stderr streams. -/
def walkTable {α : Type} (render : PropDescr → α → Option (List String))
    (mkErr : PropDescr → Int → String) (mkWarn : PropDescr → Nat → Nat → String)
    (cap : Nat) (q : Nat → Except Int (α × Nat)) :
    List PropDescr → Option (List String × List String)
  | [] => some ([], [])
  | d :: rest =>
    match tableStep render mkErr mkWarn cap d (q d.param) with
    | none => none
    | some (o1, e1) =>
      match walkTable render mkErr mkWarn cap q rest with
      | none => none
      | some (o2, e2) => some (o1 ++ o2, e1 ++ e2)

/-- String-property renderer of `print_device` (`src/main.cpp:389-393`):
every property except `EXTENSIONS` is printed verbatim behind the line head;
`EXTENSIONS` is routed through `print_extensions(buf, 43)`, whose first word
continues the already-printed line head. -/
def renderStrDev (di : Nat) (d : PropDescr) (v : String) : Option (List String) :=
  if d.name = "EXTENSIONS" then
    match print_extensions v 43 with
    | none => none
    | some [] => none
    | some (l :: ls) => some ((devLineHead di d.name ++ l) :: ls)
  else some [devLineHead di d.name ++ v]

/-- Device string-property table of `src/main.cpp:328-335`
(`STR_PROPS` plus `DRIVER_VERSION` and `EXTENSIONS`), with the `CL_DEVICE_*`
/ `CL_DRIVER_VERSION` constant values from `CL/cl.h`. -/
def strPropsDev : List PropDescr :=
  [⟨0x102B, "NAME"⟩, ⟨0x102C, "VENDOR"⟩, ⟨0x102E, "PROFILE"⟩,
   ⟨0x102F, "VERSION"⟩, ⟨0x102D, "DRIVER_VERSION"⟩, ⟨0x1030, "EXTENSIONS"⟩]

/-- Device hex-property table of `src/main.cpp:322-327` (`HEX_PROPS`). -/
def hexPropsDev : List PropDescr :=
  [⟨0x101B, "SINGLE_FP_CONFIG"⟩, ⟨0x102A, "QUEUE_PROPERTIES"⟩]

/-- Hex renderer of `src/main.cpp:459`: `": 0x" << hex << val`. -/
def renderHexDev (di : Nat) (d : PropDescr) (v : Nat) : Option (List String) :=
  some [devLineHead di d.name ++ "0x" ++ natHexStr v]

/-- Long renderer of `src/main.cpp:474`: `": " << format_long(val)`. -/
def renderLongDev (di : Nat) (d : PropDescr) (v : Nat) : Option (List String) :=
  some [devLineHead di d.name ++ format_long v]

/-- The string-property walk of `print_device` over its declared table. -/
def devStrWalk (di cap : Nat) (q : Nat → Except Int (String × Nat)) :
    Option (List String × List String) :=
  walkTable (renderStrDev di) (fun d e => errLineDev di d.name e)
    (fun d s c => truncLineDev di d.name s c) cap q strPropsDev

/-- Head of every platform property line (`src/main.cpp:525`, width 10). -/
def platLineHead (idx : Nat) (name : String) : String :=
  "platform[" ++ natDecStr idx ++ "]: " ++ padRight name 10 ++ ": "

/-- Platform-walk truncation warning
`"platform[%d]: Huge %s (%lu bytes)!  Truncating to %lu\n"` (`src/main.cpp:523`). -/
def truncLinePlat (idx : Nat) (name : String) (size cap : Nat) : String :=
  "platform[" ++ natDecStr idx ++ "]: Huge " ++ name ++ " (" ++ natDecStr size ++
    " bytes)!  Truncating to " ++ natDecStr cap

/-- Platform property table of `src/main.cpp:502-509`, in declared order,
with the `CL_PLATFORM_*` constant values. -/
def platformPropsCpp : List PropDescr :=
  [⟨0x0902, "name"⟩, ⟨0x0903, "vendor"⟩, ⟨0x0900, "profile"⟩,
   ⟨0x0901, "version"⟩, ⟨0x0904, "extensions"⟩]

/-- Platform property table of `src/clinfo.c:450-457`, in declared order. -/
def platformPropsC : List PropDescr :=
  [⟨0x0900, "profile"⟩, ⟨0x0901, "version"⟩, ⟨0x0902, "name"⟩,
   ⟨0x0903, "vendor"⟩, ⟨0x0904, "extensions"⟩]

/-- String renderer of the C++ platform walk (`src/main.cpp:525-529`):
`extensions` goes through sorted `print_extensions(buf, 25)`. -/
def renderStrPlatCpp (idx : Nat) (d : PropDescr) (v : String) : Option (List String) :=
  if d.name = "extensions" then
    match print_extensions v 25 with
    | none => none
    | some [] => none
    | some (l :: ls) => some ((platLineHead idx d.name ++ l) :: ls)
  else some [platLineHead idx d.name ++ v]

/-- String renderer of the C platform walk (`src/clinfo.c:478-487`):
`extensions` is rendered in source order via `strtok`, indent column 25. -/
def renderStrPlatC (idx : Nat) (d : PropDescr) (v : String) : Option (List String) :=
  if d.name = "extensions" then
    match print_extensions_seq v 25 with
    | none => none
    | some [] => none
    | some (l :: ls) => some ((platLineHead idx d.name ++ l) :: ls)
  else some [platLineHead idx d.name ++ v]

/-- Platform-walk failure diagnostic of the C variant
`"platform[%d]: Unable to get %s: %s\n"` (`src/clinfo.c:471`). -/
def errLinePlatC (idx : Nat) (name : String) (e : Int) : String :=
  "platform[" ++ natDecStr idx ++ "]: Unable to get " ++ name ++ ": " ++ cl_strerror e

/-- The platform property walk of the C variant (`src/clinfo.c:466-488`):
per-property diagnostics, `continue` pattern. -/
def platWalkC (idx cap : Nat) (q : Nat → Except Int (String × Nat)) :
    Option (List String × List String) :=
  walkTable (renderStrPlatC idx) (fun d e => errLinePlatC idx d.name e)
    (fun d s c => truncLinePlat idx d.name s c) cap q platformPropsC

/-- The platform property walk of the C++ variants (`src/main.cpp:515-530`,
`src/unnamed/part_000:528-542`): a failed `clGetPlatformInfo` goes through
`check_opencl_status`, which prints `msg << ": " << cl_strerror(err)` to
stderr and calls `exit(1)` — the walk stops and the whole program
terminates.  The `Bool` records whether `exit` was reached. -/
def platWalkCppLoop (idx cap : Nat) (q : Nat → Except Int (String × Nat)) :
    List PropDescr → Option (List String × List String × Bool)
  | [] => some ([], [], false)
  | d :: rest =>
    match q d.param with
    | .error e =>
      some ([], ["platform[" ++ natDecStr idx ++ "]: Unable to get " ++ d.name ++
                 ": " ++ cl_strerror e], true)
    | .ok (v, s) =>
      match renderStrPlatCpp idx d v with
      | none => none
      | some lines =>
        match platWalkCppLoop idx cap q rest with
        | none => none
        | some (o, er, ex) =>
          some (lines ++ o, (if cap < s then [truncLinePlat idx d.name s cap] else []) ++ er, ex)

/-- The platform property walk of `src/main.cpp:515-530` over its table. -/
def platWalkCpp (idx cap : Nat) (q : Nat → Except Int (String × Nat)) :
    Option (List String × List String × Bool) :=
  platWalkCppLoop idx cap q platformPropsCpp

/-- Bit-flag rendering cascade of `print_device`
(`src/main.cpp:346-369` for `CL_DEVICE_TYPE`, `400-409` for
`CL_DEVICE_EXECUTION_CAPABILITIES`): for each known flag in declared order,
`if (val & FLAG) { val &= ~FLAG; printf(name); }`.  Since every flag is a
single bit, `val &= ~FLAG` equals `val - (val &&& FLAG)`.  Returns the
concatenated flag names and the residual working copy. -/
def printFlags : List (Nat × String) → Nat → String × Nat
  | [], v => ("", v)
  | (f, n) :: rest, v =>
    if v &&& f ≠ 0 then
      let r := printFlags rest (v - (v &&& f))
      (n ++ r.1, r.2)
    else printFlags rest v

/-- Device-type flag table, in the order tested by the source:
`CL_DEVICE_TYPE_DEFAULT = 1`, `CPU = 2`, `GPU = 4`, `ACCELERATOR = 8`. -/
def deviceTypeFlags : List (Nat × String) :=
  [(1, "Default "), (2, "CPU "), (4, "GPU "), (8, "Accelerator ")]

/-- Execution-capability flag table: `CL_EXEC_KERNEL = 1`,
`CL_EXEC_NATIVE_KERNEL = 2`. -/
def execFlags : List (Nat × String) :=
  [(1, "Kernel "), (2, "Native ")]

/-- Value part of a bit-flag property line: the flag-name cascade followed
by `printf("Unknown (0x%lx) ", val)` when the working copy is nonzero after
all known flags were tested. -/
def renderFlagsValue (table : List (Nat × String)) (v : Nat) : String :=
  let r := printFlags table v
  r.1 ++ (if r.2 ≠ 0 then "Unknown (0x" ++ natHexStr r.2 ++ ") " else "")

/-- Name table for `CL_DEVICE_GLOBAL_MEM_CACHE_TYPE` (`src/main.cpp:424`). -/
def cacheTypes : List String := ["None", "Read-Only", "Read-Write"]

/-- Name table for `CL_DEVICE_LOCAL_MEM_TYPE` (`src/main.cpp:436`). -/
def lmemTypes : List String := ["???", "Local", "Global"]

/-- Indexed lookup `val < numTypes ? table[val] : "???"`. -/
def idxName (tbl : List String) (v : Nat) : String :=
  if h : v < tbl.length then tbl.get ⟨v, h⟩ else "???"

/-- The `GLOBAL_MEM_CACHE_TYPE` line (`src/main.cpp:427`):
`"device[%d]: GLOBAL_MEM_CACHE_TYPE         : %s (%ld)\n"`. -/
def renderCacheTypeLine (di v : Nat) : String :=
  "device[" ++ natDecStr di ++ "]: GLOBAL_MEM_CACHE_TYPE         : " ++
    idxName cacheTypes v ++ " (" ++ natDecStr v ++ ")"

/-- The `CL_DEVICE_LOCAL_MEM_TYPE` line (`src/main.cpp:439-440`). -/
def renderLmemTypeLine (di v : Nat) : String :=
  "device[" ++ natDecStr di ++ "]: CL_DEVICE_LOCAL_MEM_TYPE      : " ++
    idxName lmemTypes v ++ " (" ++ natDecStr v ++ ")"

/-- Entity sequencing loop with separators
(`src/main.cpp:69-74` platforms, `545-550` devices;
`src/clinfo.c:507-514`, `553-560`): render entity `ii`, then print the
separator line exactly when `ii + 1 < n`. -/
def seqWithSep (render : Nat → List String) (sep : String) (n : Nat) : List String :=
  ((List.range n).map (fun ii => render ii ++ if ii + 1 < n then [sep] else [])).flatten

/-- The 80-column `=` separator printed between platforms. -/
def platformSepLine : String := String.mk (List.replicate 80 '=')

/-- The 80-column `-` separator printed between devices. -/
def deviceSepLine : String := String.mk (List.replicate 80 '-')

/-- Platform loop of `display` / `main` over the per-platform renderings. -/
def displayPlatforms (render : Nat → List String) (n : Nat) : List String :=
  seqWithSep render platformSepLine n

/-- Device loop of `print_platform` over the per-device renderings. -/
def platformDevices (render : Nat → List String) (m : Nat) : List String :=
  seqWithSep render deviceSepLine m

/-- Channel-order symbol table of `print_image_formats`
(`src/main.cpp:193-215`), including the padded column text; unknown values
fall back to `" UKNOWN  %8x"`. -/
def channelOrderText (o : Nat) : String :=
  if o = 0x10B0 then " CL_R            "
  else if o = 0x10B1 then " CL_A            "
  else if o = 0x10B2 then " CL_RG           "
  else if o = 0x10B3 then " CL_RA           "
  else if o = 0x10B4 then " CL_RGB          "
  else if o = 0x10B5 then " CL_RGBA         "
  else if o = 0x10B6 then " CL_BGRA         "
  else if o = 0x10B7 then " CL_ARGB         "
  else if o = 0x10B8 then " CL_INTENSITY    "
  else if o = 0x10B9 then " CL_LUMINANCE    "
  else if o = 0x10BA then " CL_Rx           "
  else if o = 0x10BB then " CL_RGx          "
  else if o = 0x10BC then " CL_RGBx         "
  else if o = 0x10BD then " CL_DEPTH        "
  else if o = 0x10BE then " CL_DEPTH_STENCIL"
  else " UKNOWN  " ++ padLeft (natHexStr o) 8

/-- Channel-data-type symbol table of `print_image_formats`
(`src/main.cpp:216-237`), each case text beginning with `", "`. -/
def channelTypeText (t : Nat) : String :=
  if t = 0x10D0 then ", CL_SNORM_INT8"
  else if t = 0x10D1 then ", CL_SNORM_INT16"
  else if t = 0x10D2 then ", CL_UNORM_INT8"
  else if t = 0x10D3 then ", CL_UNORM_INT16"
  else if t = 0x10D4 then ", CL_UNORM_SHORT_565"
  else if t = 0x10D5 then ", CL_UNORM_SHORT_555"
  else if t = 0x10D6 then ", CL_UNORM_INT_101010"
  else if t = 0x10D7 then ", CL_SIGNED_INT8"
  else if t = 0x10D8 then ", CL_SIGNED_INT16"
  else if t = 0x10D9 then ", CL_SIGNED_INT32"
  else if t = 0x10DA then ", CL_UNSIGNED_INT8"
  else if t = 0x10DB then ", CL_UNSIGNED_INT16"
  else if t = 0x10DC then ", CL_UNSIGNED_INT32"
  else if t = 0x10DD then ", CL_HALF_FLOAT"
  else if t = 0x10DE then ", CL_FLOAT"
  else if t = 0x10DF then ", CL_UNORM_INT24"
  else ", UKNOWN " ++ padLeft (natHexStr t) 8

/-- Per-format row loop of `print_image_formats` (`src/main.cpp:189-238`):
every row after the first is preceded by 42 alignment spaces. -/
def renderImageFormats : Nat → List (Nat × Nat) → List String
  | _, [] => []
  | i, f :: rest =>
    ((if 0 < i then String.mk (List.replicate 42 ' ') else "") ++
       channelOrderText f.1 ++ channelTypeText f.2) ::
      renderImageFormats (i + 1) rest

/-- Oracle for one invocation of the image-format enumerator: outcomes of
`clCreateContext`, the format-count query, the format-list query, and the
status `clReleaseContext` would return. -/
structure ImgOracle where
  createContext : Except Int Unit
  queryCount : Except Int Nat
  queryFormats : Nat → Except Int (List (Nat × Nat))
  releaseStatus : Int

/-- Result of one run of `print_image_formats`: the two output streams and
whether `clReleaseContext` was invoked on the created context. -/
structure ImgRun where
  out : List String
  err : List String
  released : Bool

/-- Image-format enumerator `print_image_formats` (`src/main.cpp:164-242`,
`src/clinfo.c:117-198`): each step is independently fallible; a failing
format-count query or format-list query makes the function `return` at once
— in the source these two early returns skip the trailing
`clReleaseContext(context)` call, so `released` is `false` on those paths. -/
def print_image_formats_run (di : Nat) (o : ImgOracle) : ImgRun :=
  match o.createContext with
  | .error e =>
    ⟨[], ["\tdevice[" ++ natDecStr di ++ "]: Unable to create context: " ++
          cl_strerror e ++ "!"], false⟩
  | .ok _ =>
    match o.queryCount with
    | .error e =>
      ⟨[], ["\tdevice[" ++ natDecStr di ++
            "]: Unable to get number of supported image formats: " ++
            cl_strerror e ++ "!"], false⟩
    | .ok n =>
      match o.queryFormats n with
      | .error e =>
        ⟨[], ["\tdevice[" ++ natDecStr di ++
              "]: Unable to get supported image formats: " ++
              cl_strerror e ++ "!"], false⟩
      | .ok fmts =>
        ⟨renderImageFormats 0 fmts,
         if o.releaseStatus ≠ 0 then
           ["\tdevice[" ++ natDecStr di ++ "]: Unable to release context: " ++
            cl_strerror o.releaseStatus ++ "!"]
         else [],
         true⟩

/-- Decimal re-parsing of a digit-character list, most significant first:
the fold a reader of the report performs on the digits. -/
def parseFrom (a : Nat) (l : List Char) : Nat :=
  l.foldl (fun acc c => 10 * acc + (c.toNat - 48)) a

/-- Decimal re-parsing of a string of digits. -/
def parseNat (s : String) : Nat := parseFrom 0 s.data

/-- Deletion of every comma from a string (the inverse step of the
thousands grouping). -/
def stripCommas (s : String) : String :=
  String.mk (s.data.filter (fun c => c ≠ ','))

/-- Comma-separated join of a group list; the unique decomposition of a
comma-grouped rendering into comma-free groups. -/
def joinGroups : List String → String
  | [] => ""
  | [g] => g
  | g :: gs => g ++ "," ++ joinGroups gs

/-- A base-1000 digit group rendered to exactly three characters the way
`format_long` pads it retroactively. -/
def pad3Str (x : Nat) : String := padGroup x (natDecStr x)

/-- Reference decomposition of `format_long`'s output: the base-1000 digit
groups of `val`, most significant first, the leading group unpadded. -/
def groupList (val : Nat) : List String :=
  if 999 < val then groupList (val / 1000) ++ [pad3Str (val % 1000)]
  else [natDecStr val]
termination_by val
decreasing_by exact Nat.div_lt_self (by omega) (by omega)

/-- A descriptor whose query succeeds within the buffer capacity and whose
value the renderer accepts: the nominal case of a walk step. -/
def nominalFor {α : Type} (render : PropDescr → α → Option (List String))
    (cap : Nat) (q : Nat → Except Int (α × Nat)) (d : PropDescr) : Prop :=
  ∃ v s, q d.param = Except.ok (v, s) ∧ s ≤ cap ∧ (render d v).isSome

/-- Expected stdout stream of a table walk: the renderings of the
successfully queried descriptors, concatenated in declared order; a failed
descriptor contributes nothing. -/
def walkOut {α : Type} (render : PropDescr → α → Option (List String))
    (q : Nat → Except Int (α × Nat)) (table : List PropDescr) : List String :=
  (table.map (fun d =>
    match q d.param with
    | .error _ => []
    | .ok (v, _) => (render d v).getD [])).flatten

/-! Foundational lemmas about the decimal rendering helpers. -/

theorem digitChar_toNat {d : Nat} (h : d < 10) : (digitChar d).toNat = 48 + d := by
  unfold digitChar
  interval_cases d <;> decide

theorem digitChar_isDigit {d : Nat} (h : d < 10) : (digitChar d).isDigit := by
  unfold digitChar
  interval_cases d <;> decide

theorem digitChar_eq_zero_iff {d : Nat} (h : d < 10) : digitChar d = '0' ↔ d = 0 := by
  unfold digitChar
  interval_cases d <;> decide

theorem natDecAux_small {n : Nat} (h : n < 10) (acc : List Char) :
    natDecAux n acc = digitChar n :: acc := by
  rw [natDecAux, if_pos h]

theorem natDecAux_big {n : Nat} (h : ¬n < 10) (acc : List Char) :
    natDecAux n acc = natDecAux (n / 10) (digitChar (n % 10) :: acc) := by
  rw [natDecAux, if_neg h]

theorem natDecAux_eq (n : Nat) : ∀ acc, natDecAux n acc = natDecAux n [] ++ acc := by
  induction n using Nat.strong_induction_on with
  | _ n ih =>
    intro acc
    by_cases h : n < 10
    · rw [natDecAux_small h, natDecAux_small h]
      rfl
    · have hd : n / 10 < n := Nat.div_lt_self (by omega) (by omega)
      rw [natDecAux_big h, natDecAux_big h,
        ih _ hd (digitChar (n % 10) :: acc), ih _ hd [digitChar (n % 10)]]
      simp

theorem natDec_small {n : Nat} (h : n < 10) : natDec n = [digitChar n] := by
  rw [natDec, natDecAux_small h]

theorem natDec_step {n : Nat} (h : 10 ≤ n) :
    natDec n = natDec (n / 10) ++ [digitChar (n % 10)] := by
  rw [natDec, natDecAux_big (by omega), natDecAux_eq]
  rfl

theorem natDec_two {n : Nat} (h1 : 10 ≤ n) (h2 : n < 100) :
    natDec n = [digitChar (n / 10), digitChar (n % 10)] := by
  rw [natDec_step h1, natDec_small (by omega)]
  rfl

theorem natDec_three {n : Nat} (h1 : 100 ≤ n) (h2 : n < 1000) :
    natDec n = [digitChar (n / 100), digitChar (n / 10 % 10), digitChar (n % 10)] := by
  have hq : n / 10 / 10 = n / 100 := by omega
  rw [natDec_step (by omega), natDec_two (by omega) (by omega), hq]
  rfl

theorem natDec_ne_nil (n : Nat) : natDec n ≠ [] := by
  by_cases h : n < 10
  · rw [natDec_small h]; simp
  · rw [natDec_step (by omega)]; simp

theorem natDec_len_le : ∀ k n : Nat, n < 10 ^ k → 1 ≤ k → (natDec n).length ≤ k := by
  intro k
  induction k with
  | zero => omega
  | succ k ih =>
    intro n hn _
    by_cases h : n < 10
    · rw [natDec_small h]; simp
    · rw [natDec_step (by omega)]
      have hk : 1 ≤ k := by
        rcases Nat.eq_zero_or_pos k with hk0 | hk0
        · subst hk0; simp at hn; omega
        · exact hk0
      have hdiv : n / 10 < 10 ^ k := by
        rw [pow_succ] at hn
        omega
      have := ih (n / 10) hdiv hk
      simp
      omega

theorem natDec_all_digits : ∀ n : Nat, ∀ c ∈ natDec n, c.isDigit := by
  intro n
  induction n using Nat.strong_induction_on with
  | _ n ih =>
    intro c hc
    by_cases h : n < 10
    · rw [natDec_small h] at hc
      simp at hc
      subst hc
      exact digitChar_isDigit h
    · rw [natDec_step (by omega)] at hc
      rcases List.mem_append.mp hc with h1 | h2
      · exact ih (n / 10) (Nat.div_lt_self (by omega) (by omega)) c h1
      · simp at h2
        subst h2
        exact digitChar_isDigit (Nat.mod_lt _ (by omega))

theorem natDec_head_ne_zero : ∀ n : Nat, 1 ≤ n → ∀ c, (natDec n).head? = some c → c ≠ '0' := by
  intro n
  induction n using Nat.strong_induction_on with
  | _ n ih =>
    intro hn c hc
    by_cases h : n < 10
    · rw [natDec_small h] at hc
      simp at hc
      subst hc
      intro h0
      have := (digitChar_eq_zero_iff h).mp h0
      omega
    · rw [natDec_step (by omega), List.head?_append_of_ne_nil _ (natDec_ne_nil _)] at hc
      have h1 : 1 ≤ n / 10 := by omega
      exact ih (n / 10) (Nat.div_lt_self (by omega) (by omega)) h1 c hc

theorem parseFrom_append (a : Nat) (l1 l2 : List Char) :
    parseFrom a (l1 ++ l2) = parseFrom (parseFrom a l1) l2 :=
  List.foldl_append _ _ _ _

theorem parseFrom_natDec : ∀ n a : Nat, parseFrom a (natDec n) = a * 10 ^ (natDec n).length + n := by
  intro n
  induction n using Nat.strong_induction_on with
  | _ n ih =>
    intro a
    by_cases h : n < 10
    · rw [natDec_small h]
      simp [parseFrom, digitChar_toNat h]
      ring
    · rw [natDec_step (by omega), parseFrom_append,
        ih (n / 10) (Nat.div_lt_self (by omega) (by omega)) a]
      have hm : n % 10 < 10 := Nat.mod_lt _ (by omega)
      simp [parseFrom, digitChar_toNat hm, pow_succ]
      have hdm : 10 * (n / 10) + n % 10 = n := by omega
      ring_nf
      omega

theorem parseNat_natDecStr (n : Nat) : parseNat (natDecStr n) = n := by
  have h := parseFrom_natDec n 0
  simpa [parseNat, natDecStr] using h

/-! Structure of the thousands-grouped rendering produced by `format_long`. -/

theorem strAssoc (a b c : String) : a ++ b ++ c = a ++ (b ++ c) := by
  apply String.ext
  simp [String.data_append, List.append_assoc]

theorem padGroup_append (x : Nat) (s r : String) :
    padGroup x (s ++ r) = padGroup x s ++ r := by
  unfold padGroup
  split_ifs <;> simp [strAssoc]

theorem joinGroups_append_singleton :
    ∀ (gs : List String) (g : String), gs ≠ [] →
      joinGroups (gs ++ [g]) = joinGroups gs ++ "," ++ g := by
  intro gs
  induction gs with
  | nil => intro g h; exact absurd rfl h
  | cons a as ih =>
    intro g _
    cases as with
    | nil => rfl
    | cons b bs =>
      have e1 : joinGroups (a :: ((b :: bs) ++ [g])) = a ++ "," ++ joinGroups ((b :: bs) ++ [g]) := rfl
      have e2 : joinGroups (a :: b :: bs) = a ++ "," ++ joinGroups (b :: bs) := rfl
      rw [List.cons_append, e1, ih g (by simp), e2]
      simp [strAssoc]

theorem groupList_small {val : Nat} (h : ¬999 < val) : groupList val = [natDecStr val] := by
  rw [groupList, if_neg h]

theorem groupList_big {val : Nat} (h : 999 < val) :
    groupList val = groupList (val / 1000) ++ [pad3Str (val % 1000)] := by
  rw [groupList, if_pos h]

theorem groupList_ne_nil (val : Nat) : groupList val ≠ [] := by
  by_cases h : 999 < val
  · rw [groupList_big h]; simp
  · rw [groupList_small h]; simp

theorem format_long_loop_small {val : Nat} (h : ¬999 < val) (r : String) :
    format_long_loop val r = r := by
  rw [format_long_loop, if_neg h]

theorem format_long_loop_big {val : Nat} (h : 999 < val) (r : String) :
    format_long_loop val r =
      format_long_loop (val / 1000)
        (natDecStr (val / 1000 % 1000) ++ "," ++ padGroup (val % 1000) r) := by
  rw [format_long_loop, if_pos h]

theorem format_long_loop_eq :
    ∀ val : Nat, ∀ r : String,
      format_long_loop val (natDecStr (val % 1000) ++ r) = joinGroups (groupList val) ++ r := by
  intro val
  induction val using Nat.strong_induction_on with
  | _ val ih =>
    intro r
    by_cases h : 999 < val
    · rw [format_long_loop_big h, padGroup_append, groupList_big h,
        joinGroups_append_singleton _ _ (groupList_ne_nil _)]
      have harg :
          natDecStr (val / 1000 % 1000) ++ "," ++ (padGroup (val % 1000) (natDecStr (val % 1000)) ++ r) =
            natDecStr (val / 1000 % 1000) ++ ("," ++ (pad3Str (val % 1000) ++ r)) := by
        rw [pad3Str, strAssoc]
      rw [harg, ih (val / 1000) (Nat.div_lt_self (by omega) (by omega))]
      rw [strAssoc, strAssoc]
    · rw [format_long_loop_small h, groupList_small h,
        Nat.mod_eq_of_lt (by omega : val < 1000)]
      rfl

theorem format_long_eq (val : Nat) : format_long val = joinGroups (groupList val) := by
  have h := format_long_loop_eq val ""
  rw [String.append_empty, String.append_empty] at h
  rw [format_long]
  exact h

theorem pad3_data {x : Nat} (h : x < 1000) :
    (pad3Str x).data = [digitChar (x / 100), digitChar (x / 10 % 10), digitChar (x % 10)] := by
  unfold pad3Str padGroup
  by_cases h1 : x < 10
  · rw [if_pos (by omega), if_pos h1, natDecStr, natDec_small h1]
    have e1 : x / 100 = 0 := by omega
    have e2 : x / 10 % 10 = 0 := by omega
    have e3 : x % 10 = x := by omega
    rw [e1, e2, e3]
    simp [String.data_append]
    constructor
  · by_cases h2 : x < 100
    · rw [if_pos h2, if_neg h1, natDecStr, natDec_two (by omega) h2]
      have e1 : x / 100 = 0 := by omega
      have e2 : x / 10 % 10 = x / 10 := by omega
      rw [e1, e2]
      simp [String.data_append]
      decide
    · rw [if_neg h2, natDecStr, natDec_three (by omega) h]

theorem pad3_len {x : Nat} (h : x < 1000) : (pad3Str x).length = 3 := by
  show (pad3Str x).data.length = 3
  rw [pad3_data h]
  rfl

theorem pad3_digits {x : Nat} (h : x < 1000) : ∀ c ∈ (pad3Str x).data, c.isDigit := by
  rw [pad3_data h]
  intro c hc
  simp at hc
  rcases hc with h1 | h1 | h1 <;> subst h1 <;> exact digitChar_isDigit (by omega)

theorem isDigit_ne_comma {c : Char} (h : c.isDigit) : c ≠ ',' := by
  intro h1
  subst h1
  simp [Char.isDigit] at h

theorem pad3_parse {x : Nat} (h : x < 1000) (a : Nat) :
    parseFrom a (pad3Str x).data = 1000 * a + x := by
  rw [pad3_data h]
  have e1 : (digitChar (x / 100)).toNat = 48 + x / 100 := digitChar_toNat (by omega)
  have e2 : (digitChar (x / 10 % 10)).toNat = 48 + x / 10 % 10 := digitChar_toNat (by omega)
  have e3 : (digitChar (x % 10)).toNat = 48 + x % 10 := digitChar_toNat (by omega)
  simp [parseFrom, e1, e2, e3]
  omega

theorem natDec_triple {val : Nat} (h : 999 < val) :
    natDec val = natDec (val / 1000) ++
      [digitChar (val % 1000 / 100), digitChar (val % 1000 / 10 % 10), digitChar (val % 1000 % 10)] := by
  have e1 : val % 1000 / 100 = val / 100 % 10 := by omega
  have e2 : val % 1000 / 10 % 10 = val / 10 % 10 := by omega
  have e3 : val % 1000 % 10 = val % 10 := by omega
  have e4 : val / 10 / 10 = val / 100 := by omega
  have e5 : val / 100 / 10 = val / 1000 := by omega
  rw [e1, e2, e3, natDec_step (by omega : 10 ≤ val),
    natDec_step (by omega : 10 ≤ val / 10), e4,
    natDec_step (by omega : 10 ≤ val / 100), e5]
  simp [List.append_assoc]

theorem strip_groups :
    ∀ val : Nat, (joinGroups (groupList val)).data.filter (fun c => c ≠ ',') = natDec val := by
  intro val
  induction val using Nat.strong_induction_on with
  | _ val ih =>
    by_cases h : 999 < val
    · rw [groupList_big h, joinGroups_append_singleton _ _ (groupList_ne_nil _)]
      have hmod : val % 1000 < 1000 := Nat.mod_lt _ (by omega)
      rw [natDec_triple h, ← pad3_data hmod]
      simp only [String.data_append, List.filter_append]
      rw [ih (val / 1000) (Nat.div_lt_self (by omega) (by omega))]
      have hc : (",".data.filter (fun c => c ≠ ',')) = [] := by decide
      rw [hc]
      have hp : ((pad3Str (val % 1000)).data.filter (fun c => c ≠ ',')) =
          (pad3Str (val % 1000)).data := by
        apply List.filter_eq_self.mpr
        intro c hcmem
        simpa using isDigit_ne_comma (pad3_digits hmod c hcmem)
      rw [hp]
      simp
    · rw [groupList_small h]
      show ((natDecStr val).data.filter (fun c => c ≠ ',')) = natDec val
      have : (natDecStr val).data = natDec val := rfl
      rw [this]
      apply List.filter_eq_self.mpr
      intro c hcmem
      simpa using isDigit_ne_comma (natDec_all_digits val c hcmem)

theorem format_long_roundtrip (v : Nat) : parseNat (stripCommas (format_long v)) = v := by
  rw [format_long_eq, parseNat, stripCommas]
  have : (String.mk ((joinGroups (groupList v)).data.filter (fun c => c ≠ ','))).data =
      (joinGroups (groupList v)).data.filter (fun c => c ≠ ',') := rfl
  rw [this, strip_groups v]
  have h := parseFrom_natDec v 0
  simpa [parseFrom] using h

theorem groupList_props :
    ∀ val : Nat, ∀ g ∈ groupList val,
      1 ≤ g.length ∧ g.length ≤ 3 ∧ ∀ c ∈ g.data, c.isDigit := by
  intro val
  induction val using Nat.strong_induction_on with
  | _ val ih =>
    intro g hg
    by_cases h : 999 < val
    · rw [groupList_big h] at hg
      rcases List.mem_append.mp hg with h1 | h1
      · exact ih (val / 1000) (Nat.div_lt_self (by omega) (by omega)) g h1
      · simp at h1
        subst h1
        have hmod : val % 1000 < 1000 := Nat.mod_lt _ (by omega)
        exact ⟨by rw [pad3_len hmod]; omega, by rw [pad3_len hmod], pad3_digits hmod⟩
    · rw [groupList_small h] at hg
      simp at hg
      subst hg
      refine ⟨?_, ?_, natDec_all_digits val⟩
      · show 1 ≤ (natDec val).length
        have := natDec_ne_nil val
        cases hne : natDec val with
        | nil => exact absurd hne this
        | cons c cs => simp [hne]
      · show (natDec val).length ≤ 3
        exact natDec_len_le 3 val (by omega) (by omega)

theorem groupList_tail_len :
    ∀ val : Nat, ∀ g ∈ (groupList val).tail, g.length = 3 := by
  intro val
  induction val using Nat.strong_induction_on with
  | _ val ih =>
    intro g hg
    by_cases h : 999 < val
    · rw [groupList_big h] at hg
      have htail : (groupList (val / 1000) ++ [pad3Str (val % 1000)]).tail =
          (groupList (val / 1000)).tail ++ [pad3Str (val % 1000)] := by
        cases hne : groupList (val / 1000) with
        | nil => exact absurd hne (groupList_ne_nil _)
        | cons a as => simp
      rw [htail] at hg
      rcases List.mem_append.mp hg with h1 | h1
      · exact ih (val / 1000) (Nat.div_lt_self (by omega) (by omega)) g h1
      · simp at h1
        subst h1
        exact pad3_len (Nat.mod_lt _ (by omega))
    · rw [groupList_small h] at hg
      simp at hg

theorem groupList_head_val :
    ∀ val : Nat, ∃ w, w ≤ 999 ∧ (w = 0 → val = 0) ∧
      (groupList val).head? = some (natDecStr w) := by
  intro val
  induction val using Nat.strong_induction_on with
  | _ val ih =>
    by_cases h : 999 < val
    · rw [groupList_big h, List.head?_append_of_ne_nil _ (groupList_ne_nil _)]
      obtain ⟨w, hw1, hw2, hw3⟩ := ih (val / 1000) (Nat.div_lt_self (by omega) (by omega))
      exact ⟨w, hw1, fun h0 => absurd (hw2 h0) (by omega), hw3⟩
    · exact ⟨val, by omega, fun h0 => h0, by rw [groupList_small h]; rfl⟩

theorem groupList_head_no_zero :
    ∀ (val : Nat) (g : String), (groupList val).head? = some g →
      g = "0" ∨ g.data.head? ≠ some '0' := by
  intro val g hg
  obtain ⟨w, hw1, _, hw3⟩ := groupList_head_val val
  rw [hw3] at hg
  have hgw : g = natDecStr w := by
    injection hg with h
    exact h.symm
  subst hgw
  by_cases hw0 : w = 0
  · left
    subst hw0
    have : natDec 0 = [digitChar 0] := natDec_small (by omega)
    show natDecStr 0 = "0"
    rw [natDecStr, this]
    decide
  · right
    intro hcontra
    have hd := natDec_head_ne_zero w (by omega) '0'
    exact hd hcontra rfl

/-- Claim C4: for every unsigned 64-bit value `v`, `format_long v` is a
comma-separated list of digit groups, all of length 1 to 3 and made of
decimal digits, the leading group without leading zeros (`"0"` itself only
for `v = 0`), every non-leading group of exactly three (zero-padded)
digits, and deleting the commas and re-parsing the digits yields `v`. -/
theorem c4_format_long_grouping (v : Nat) (hv : v < 2 ^ 64) :
    ∃ gs : List String,
      format_long v = joinGroups gs ∧
      gs ≠ [] ∧
      (∀ g ∈ gs, 1 ≤ g.length ∧ g.length ≤ 3 ∧ ∀ c ∈ g.data, c.isDigit) ∧
      (∀ g, gs.head? = some g → g = "0" ∨ g.data.head? ≠ some '0') ∧
      (∀ g ∈ gs.tail, g.length = 3) ∧
      parseNat (stripCommas (format_long v)) = v :=
  ⟨groupList v, format_long_eq v, groupList_ne_nil v, groupList_props v,
   fun g hg => groupList_head_no_zero v g hg, groupList_tail_len v,
   format_long_roundtrip v⟩

/-- Witness for C4 at `v = 1234567`, together with the spec's concrete
examples evaluated on the embedding. -/
theorem c4_format_long_grouping_witness :
    1234567 < 2 ^ 64 ∧
    parseNat (stripCommas (format_long 1234567)) = 1234567 ∧
    format_long 1234567 = "1,234,567" ∧
    format_long 1000 = "1,000" ∧
    format_long 999 = "999" ∧
    format_long 0 = "0" := by
  refine ⟨by norm_num, ?_, ?_, ?_, ?_, ?_⟩
  · obtain ⟨gs, -, -, -, -, -, hp⟩ := c4_format_long_grouping 1234567 (by norm_num)
    exact hp
  · simp [format_long, format_long_loop, natDecStr, natDec, natDecAux, padGroup, digitChar]
  · simp [format_long, format_long_loop, natDecStr, natDec, natDecAux, padGroup, digitChar]
  · simp [format_long, format_long_loop, natDecStr, natDec, natDecAux, padGroup, digitChar]
  · simp [format_long, format_long_loop, natDecStr, natDec, natDecAux, padGroup, digitChar]

/-! Status translator: claim C3. -/

theorem lookupMsg_mem :
    ∀ (tbl : List (Int × String)) (e : Int) (m : String),
      lookupMsg tbl e = some m → m ∈ tbl.map Prod.snd := by
  intro tbl
  induction tbl with
  | nil => intro e m h; simp [lookupMsg] at h
  | cons p rest ih =>
    intro e m h
    rw [lookupMsg] at h
    by_cases hc : p.1 = e
    · rw [if_pos hc] at h
      injection h with h
      simp [h]
    · rw [if_neg hc] at h
      simp only [List.map_cons, List.mem_cons]
      right
      exact ih e m h

theorem intDec_len_le_ten {e : Int} (h1 : -1000000000 < e) (h2 : e < 2147483648) :
    (intDec e).length ≤ 10 := by
  unfold intDec
  split_ifs with hneg
  · have hn : e.natAbs < 10 ^ 9 := by
      have : e.natAbs ≤ 999999999 := by omega
      calc e.natAbs ≤ 999999999 := this
        _ < 10 ^ 9 := by norm_num
    have hlen := natDec_len_le 9 e.natAbs hn (by omega)
    simp
    omega
  · have hn : e.natAbs < 10 ^ 10 := by
      have : e.natAbs ≤ 2147483647 := by omega
      calc e.natAbs ≤ 2147483647 := this
        _ < 10 ^ 10 := by norm_num
    exact natDec_len_le 10 e.natAbs hn (by omega)

theorem unknownText_ne_empty (e : Int) : unknownText e ≠ "" := by
  intro h
  have hd : (unknownText e).data = [] := by rw [h]
  rw [unknownText] at hd
  have hlen : (("unknown error ".data ++ intDec e).take 24).length = 0 := by
    rw [show (String.mk (("unknown error ".data ++ intDec e).take 24)).data =
      ("unknown error ".data ++ intDec e).take 24 from rfl] at hd
    rw [hd]
    rfl
  rw [List.length_take, List.length_append] at hlen
  have : ("unknown error ".data).length = 14 := by decide
  omega

/-- Claim C3 (amended): the translator is total and never returns an empty
string; every known code maps to its fixed phrase (code 0 to `"no error"`);
for every code outside the table the result is the first 24 characters of
`"unknown error <N>"` — which equals the untruncated text, containing the
full literal decimal code, whenever the code is above `-1000000000`. -/
theorem c3_status_translator (e : Int)
    (h1 : -2147483648 ≤ e) (h2 : e < 2147483648) :
    cl_strerror e ≠ "" ∧
    (∀ p ∈ error_table, cl_strerror p.1 = p.2) ∧
    (lookupMsg error_table e = none →
      cl_strerror e = String.mk (("unknown error ".data ++ intDec e).take 24) ∧
      (-1000000000 < e → cl_strerror e = "unknown error " ++ intDecStr e)) := by
  refine ⟨?_, by decide, ?_⟩
  · cases hm : lookupMsg error_table e with
    | none =>
      rw [cl_strerror, hm]
      exact unknownText_ne_empty e
    | some m =>
      rw [cl_strerror, hm]
      have hmem := lookupMsg_mem error_table e m hm
      have hall : ∀ x ∈ error_table.map Prod.snd, x ≠ "" := by decide
      exact hall m hmem
  · intro hm
    have hbase : cl_strerror e = unknownText e := by rw [cl_strerror, hm]
    refine ⟨hbase, ?_⟩
    intro h3
    rw [hbase, unknownText]
    have hlen : ("unknown error ".data ++ intDec e).length ≤ 24 := by
      rw [List.length_append]
      have h14 : ("unknown error ".data).length = 14 := by decide
      have := intDec_len_le_ten h3 h2
      omega
    rw [List.take_of_length_le hlen]
    apply String.ext
    simp [String.data_append, intDecStr]

/-- Counterexample to C3 as stated: `-2147483648` is a valid signed status
code outside the known table, yet the 25-byte static buffer truncates
`snprintf`'s output to 24 characters, so the returned text does not contain
the literal decimal value of the code. -/
theorem c3_status_translator_counterexample :
    cl_strerror (-2147483648) = "unknown error -214748364" ∧
    cl_strerror (-2147483648) ≠ "unknown error " ++ intDecStr (-2147483648) := by
  have ha : cl_strerror (-2147483648) = "unknown error -214748364" := by
    simp [cl_strerror, lookupMsg, error_table, unknownText, intDec, natDec,
      natDecAux, digitChar]
  have hb : intDecStr (-2147483648) = "-2147483648" := by
    simp [intDecStr, intDec, natDec, natDecAux, digitChar]
  refine ⟨ha, ?_⟩
  rw [ha, hb]
  decide

/-- Witness for C3 at the unknown code `12345` and the known code `0`. -/
theorem c3_status_translator_witness :
    (-2147483648 ≤ (12345 : Int)) ∧ (12345 : Int) < 2147483648 ∧
    lookupMsg error_table 12345 = none ∧
    cl_strerror 12345 = "unknown error " ++ intDecStr 12345 ∧
    cl_strerror 0 = "no error" := by
  have h := c3_status_translator 12345 (by norm_num) (by norm_num)
  refine ⟨by norm_num, by norm_num, by decide, ?_, ?_⟩
  · exact (h.2.2 (by decide)).2 (by norm_num)
  · have hk := h.2.1 (0, "no error") (by decide)
    simpa using hk

/-! Property table walker: claims C1 and C5. -/

theorem walkTable_nominal {α : Type} (render : PropDescr → α → Option (List String))
    (mkErr : PropDescr → Int → String) (mkWarn : PropDescr → Nat → Nat → String)
    (cap : Nat) (q : Nat → Except Int (α × Nat)) :
    ∀ table : List PropDescr, (∀ d ∈ table, nominalFor render cap q d) →
      walkTable render mkErr mkWarn cap q table = some (walkOut render q table, []) := by
  intro table
  induction table with
  | nil => intro _; rfl
  | cons d rest ih =>
    intro hall
    obtain ⟨v, s, hq, hs, hr⟩ := hall d (by simp)
    obtain ⟨lines, hl⟩ := Option.isSome_iff_exists.mp hr
    simp only [walkTable, tableStep, hq, hl]
    rw [if_neg (by omega)]
    rw [ih (fun d' hd' => hall d' (by simp [hd']))]
    simp [walkOut, hq, hl]

/-- Claim C1 (amended): for every property table walked with the
per-property `continue` pattern — the device tables of all variants and the
platform table of the C variant — a single failing descriptor leaves the
walk rendering the full declared-order output of every other descriptor,
the failure is reported exactly once, on the diagnostic stream only, and
the walk returns normally to its caller.  (In the C++ variants the platform
walk instead routes the failure through `check_opencl_status`, which
terminates the whole program; see the counterexample.) -/
theorem c1_walk_one_failure {α : Type} (render : PropDescr → α → Option (List String))
    (mkErr : PropDescr → Int → String) (mkWarn : PropDescr → Nat → Nat → String)
    (cap : Nat) (q : Nat → Except Int (α × Nat))
    (pre post : List PropDescr) (dfail : PropDescr) (e : Int)
    (hf : q dfail.param = Except.error e)
    (hpre : ∀ d ∈ pre, nominalFor render cap q d)
    (hpost : ∀ d ∈ post, nominalFor render cap q d) :
    walkTable render mkErr mkWarn cap q (pre ++ dfail :: post) =
      some (walkOut render q (pre ++ dfail :: post), [mkErr dfail e]) := by
  revert hpre
  induction pre with
  | nil =>
    intro _
    simp only [List.nil_append, walkTable, tableStep, hf]
    rw [walkTable_nominal render mkErr mkWarn cap q post hpost]
    simp [walkOut, hf]
  | cons p pre' ih =>
    intro hpre
    obtain ⟨v, s, hq, hs, hr⟩ := hpre p (by simp)
    obtain ⟨lines, hl⟩ := Option.isSome_iff_exists.mp hr
    simp only [List.cons_append, walkTable, tableStep, hq, hl, List.append_eq]
    rw [if_neg (by omega)]
    rw [ih (fun d hd => hpre d (by simp [hd]))]
    simp [walkOut, hq, hl]

/-- Witness for C1: the device string-property walk of `print_device` with
`VENDOR` failing and every other descriptor answering nominally. -/
theorem c1_walk_one_failure_witness :
    ((fun p => if p = 0x102C then (Except.error (-1) : Except Int (String × Nat))
        else Except.ok ("x", 1)) 0x102C = Except.error (-1)) ∧
    walkTable (renderStrDev 0) (fun d e => errLineDev 0 d.name e)
        (fun d s c => truncLineDev 0 d.name s c) 65536
        (fun p => if p = 0x102C then Except.error (-1) else Except.ok ("x", 1))
        ([⟨0x102B, "NAME"⟩] ++ ⟨0x102C, "VENDOR"⟩ ::
          [⟨0x102E, "PROFILE"⟩, ⟨0x102F, "VERSION"⟩, ⟨0x102D, "DRIVER_VERSION"⟩,
           ⟨0x1030, "EXTENSIONS"⟩]) =
      some (walkOut (renderStrDev 0)
          (fun p => if p = 0x102C then Except.error (-1) else Except.ok ("x", 1))
          ([⟨0x102B, "NAME"⟩] ++ ⟨0x102C, "VENDOR"⟩ ::
            [⟨0x102E, "PROFILE"⟩, ⟨0x102F, "VERSION"⟩, ⟨0x102D, "DRIVER_VERSION"⟩,
             ⟨0x1030, "EXTENSIONS"⟩]),
        [errLineDev 0 "VENDOR" (-1)]) := by
  constructor
  · rfl
  · exact c1_walk_one_failure (renderStrDev 0) (fun d e => errLineDev 0 d.name e)
      (fun d s c => truncLineDev 0 d.name s c) 65536 _ _ _ ⟨0x102C, "VENDOR"⟩ (-1)
      rfl
      (by intro d hd
          simp at hd
          subst hd
          exact ⟨"x", 1, rfl, by omega, rfl⟩)
      (by intro d hd
          refine ⟨"x", 1, ?_, by omega, ?_⟩
          · fin_cases hd <;> rfl
          · fin_cases hd <;> rfl)

/-- Counterexample to C1 as stated: in the C++ variants the platform
property walk routes a query failure through `check_opencl_status`, which
exits the program — with the very first descriptor (`name`) failing, no
other descriptor of the table is rendered and the exit flag is set. -/
theorem c1_walk_one_failure_counterexample :
    platWalkCpp 0 65536 (fun _ => Except.error (-1)) =
      some ([], ["platform[0]: Unable to get name: device not found"], true) := by
  simp [platWalkCpp, platWalkCppLoop, platformPropsCpp, natDecStr, natDec,
    natDecAux, digitChar, cl_strerror, lookupMsg, error_table]

/-- Claim C6: the word-list renderer on `"beta alpha"` with indent width 4
yields `"alpha"` then `"    beta"` when sorting is enabled (the C++
`print_extensions`), and `"beta"` then `"    alpha"` when sorting is
disabled (the C `strtok` loop), the first token unindented and each
subsequent token padded to the indent width. -/
theorem c6_word_list_renderer :
    print_extensions "beta alpha" 4 = some ["alpha", "    beta"] ∧
    print_extensions_seq "beta alpha" 4 = some ["beta", "    alpha"] := by
  constructor <;> rfl

/-! Bit-flag rendering: claim C7. -/

theorem and_mask_pow (x i : Nat) : x &&& 2 ^ i = 2 ^ i * (x / 2 ^ i % 2) := by
  have h := Nat.and_two_pow x i
  rw [Nat.testBit_to_div_mod] at h
  rcases Nat.mod_two_eq_zero_or_one (x / 2 ^ i) with h0 | h0 <;>
    rw [h0] at h ⊢ <;> simpa using h

theorem and_mask_one (x : Nat) : x &&& 1 = x % 2 := Nat.and_one_is_mod x

theorem and_mask_two (x : Nat) : x &&& 2 = 2 * (x / 2 % 2) := by
  have h := and_mask_pow x 1
  norm_num at h
  exact h

theorem and_mask_four (x : Nat) : x &&& 4 = 4 * (x / 4 % 2) := by
  have h := and_mask_pow x 2
  norm_num at h
  exact h

theorem and_mask_eight (x : Nat) : x &&& 8 = 8 * (x / 8 % 2) := by
  have h := and_mask_pow x 3
  norm_num at h
  exact h

theorem strEmptyAppend (s : String) : "" ++ s = s := by
  apply String.ext
  rw [String.data_append]
  rfl

theorem printFlags_cons_pos {f : Nat} {n : String} {rest : List (Nat × String)} {v : Nat}
    (h : v &&& f ≠ 0) :
    printFlags ((f, n) :: rest) v =
      (n ++ (printFlags rest (v - (v &&& f))).1, (printFlags rest (v - (v &&& f))).2) := by
  rw [printFlags, if_pos h]

theorem printFlags_cons_neg {f : Nat} {n : String} {rest : List (Nat × String)} {v : Nat}
    (h : ¬v &&& f ≠ 0) :
    printFlags ((f, n) :: rest) v = printFlags rest v := by
  rw [printFlags, if_neg h]

theorem printFlags_acc (x : Nat) :
    printFlags [(8, "Accelerator ")] x =
      ((if x / 8 % 2 ≠ 0 then "Accelerator " else ""), x - 8 * (x / 8 % 2)) := by
  by_cases h : x / 8 % 2 ≠ 0
  · rw [printFlags_cons_pos (by rw [and_mask_eight]; omega), and_mask_eight, if_pos h]
    rw [show printFlags [] (x - 8 * (x / 8 % 2)) = ("", x - 8 * (x / 8 % 2)) from rfl]
    rw [Prod.mk.injEq]
    exact ⟨String.append_empty _, rfl⟩
  · rw [printFlags_cons_neg (by rw [and_mask_eight]; omega), if_neg h]
    rw [show printFlags [] x = ("", x) from rfl, Prod.mk.injEq]
    exact ⟨rfl, by omega⟩

theorem printFlags_gpu (x : Nat) :
    printFlags [(4, "GPU "), (8, "Accelerator ")] x =
      ((if x / 4 % 2 ≠ 0 then "GPU " else "") ++ (if x / 8 % 2 ≠ 0 then "Accelerator " else ""),
        x - 4 * (x / 4 % 2) - 8 * (x / 8 % 2)) := by
  have e8 : (x - 4 * (x / 4 % 2)) / 8 % 2 = x / 8 % 2 := by omega
  by_cases h : x / 4 % 2 ≠ 0
  · rw [printFlags_cons_pos (by rw [and_mask_four]; omega), and_mask_four,
      printFlags_acc (x - 4 * (x / 4 % 2)), e8, if_pos h, Prod.mk.injEq]
    exact ⟨rfl, rfl⟩
  · rw [printFlags_cons_neg (by rw [and_mask_four]; omega), printFlags_acc x,
      if_neg h, Prod.mk.injEq]
    refine ⟨(strEmptyAppend _).symm, by omega⟩

theorem printFlags_cpu (x : Nat) :
    printFlags [(2, "CPU "), (4, "GPU "), (8, "Accelerator ")] x =
      ((if x / 2 % 2 ≠ 0 then "CPU " else "") ++
        ((if x / 4 % 2 ≠ 0 then "GPU " else "") ++ (if x / 8 % 2 ≠ 0 then "Accelerator " else "")),
        x - 2 * (x / 2 % 2) - 4 * (x / 4 % 2) - 8 * (x / 8 % 2)) := by
  have e4 : (x - 2 * (x / 2 % 2)) / 4 % 2 = x / 4 % 2 := by omega
  have e8 : (x - 2 * (x / 2 % 2)) / 8 % 2 = x / 8 % 2 := by omega
  by_cases h : x / 2 % 2 ≠ 0
  · rw [printFlags_cons_pos (by rw [and_mask_two]; omega), and_mask_two,
      printFlags_gpu (x - 2 * (x / 2 % 2)), e4, e8, if_pos h, Prod.mk.injEq]
    exact ⟨rfl, rfl⟩
  · rw [printFlags_cons_neg (by rw [and_mask_two]; omega), printFlags_gpu x,
      if_neg h, Prod.mk.injEq]
    refine ⟨(strEmptyAppend _).symm, by omega⟩

theorem printFlags_device (v : Nat) :
    printFlags deviceTypeFlags v =
      ((if v % 2 ≠ 0 then "Default " else "") ++
        ((if v / 2 % 2 ≠ 0 then "CPU " else "") ++
          ((if v / 4 % 2 ≠ 0 then "GPU " else "") ++
            (if v / 8 % 2 ≠ 0 then "Accelerator " else ""))),
        v - v % 16) := by
  have e2 : (v - v % 2) / 2 % 2 = v / 2 % 2 := by omega
  have e4 : (v - v % 2) / 4 % 2 = v / 4 % 2 := by omega
  have e8 : (v - v % 2) / 8 % 2 = v / 8 % 2 := by omega
  show printFlags ((1, "Default ") :: [(2, "CPU "), (4, "GPU "), (8, "Accelerator ")]) v = _
  by_cases h : v % 2 ≠ 0
  · rw [printFlags_cons_pos (by rw [and_mask_one]; omega), and_mask_one,
      printFlags_cpu (v - v % 2), e2, e4, e8, if_pos h, Prod.mk.injEq]
    exact ⟨rfl, by omega⟩
  · rw [printFlags_cons_neg (by rw [and_mask_one]; omega), printFlags_cpu v,
      if_neg h, Prod.mk.injEq]
    refine ⟨(strEmptyAppend _).symm, by omega⟩

theorem printFlags_native (x : Nat) :
    printFlags [(2, "Native ")] x =
      ((if x / 2 % 2 ≠ 0 then "Native " else ""), x - 2 * (x / 2 % 2)) := by
  by_cases h : x / 2 % 2 ≠ 0
  · rw [printFlags_cons_pos (by rw [and_mask_two]; omega), and_mask_two, if_pos h]
    rw [show printFlags [] (x - 2 * (x / 2 % 2)) = ("", x - 2 * (x / 2 % 2)) from rfl]
    rw [Prod.mk.injEq]
    exact ⟨String.append_empty _, rfl⟩
  · rw [printFlags_cons_neg (by rw [and_mask_two]; omega), if_neg h]
    rw [show printFlags [] x = ("", x) from rfl, Prod.mk.injEq]
    exact ⟨rfl, by omega⟩

theorem printFlags_exec (v : Nat) :
    printFlags execFlags v =
      ((if v % 2 ≠ 0 then "Kernel " else "") ++ (if v / 2 % 2 ≠ 0 then "Native " else ""),
        v - v % 4) := by
  have e2 : (v - v % 2) / 2 % 2 = v / 2 % 2 := by omega
  show printFlags ((1, "Kernel ") :: [(2, "Native ")]) v = _
  by_cases h : v % 2 ≠ 0
  · rw [printFlags_cons_pos (by rw [and_mask_one]; omega), and_mask_one,
      printFlags_native (v - v % 2), e2, if_pos h, Prod.mk.injEq]
    exact ⟨rfl, by omega⟩
  · rw [printFlags_cons_neg (by rw [and_mask_one]; omega), printFlags_native v,
      if_neg h, Prod.mk.injEq]
    refine ⟨(strEmptyAppend _).symm, by omega⟩

/-- Claim C7: for both bit-flag properties, each known flag bit that is set
contributes exactly its symbolic name, in declared table order; every
tested flag bit is cleared from the working copy, so the residual equals
the value with its low known-flag bits removed; the residual hexadecimal
tail is printed precisely when bits outside the known flag set remain
(`16 ≤ v` resp. `4 ≤ v`). -/
theorem c7_bit_flag_rendering (v : Nat) :
    renderFlagsValue deviceTypeFlags v =
      (if v &&& 1 ≠ 0 then "Default " else "") ++ (if v &&& 2 ≠ 0 then "CPU " else "") ++
        (if v &&& 4 ≠ 0 then "GPU " else "") ++ (if v &&& 8 ≠ 0 then "Accelerator " else "") ++
        (if 16 ≤ v then "Unknown (0x" ++ natHexStr (v - v % 16) ++ ") " else "") ∧
    (printFlags deviceTypeFlags v).2 = v - v % 16 ∧
    v % 16 = v &&& 15 ∧
    renderFlagsValue execFlags v =
      (if v &&& 1 ≠ 0 then "Kernel " else "") ++ (if v &&& 2 ≠ 0 then "Native " else "") ++
        (if 4 ≤ v then "Unknown (0x" ++ natHexStr (v - v % 4) ++ ") " else "") ∧
    (printFlags execFlags v).2 = v - v % 4 ∧
    v % 4 = v &&& 3 := by
  have i1 : (v &&& 1 ≠ 0) ↔ (v % 2 ≠ 0) := by rw [and_mask_one]
  have i2 : (v &&& 2 ≠ 0) ↔ (v / 2 % 2 ≠ 0) := by rw [and_mask_two]; omega
  have i4 : (v &&& 4 ≠ 0) ↔ (v / 4 % 2 ≠ 0) := by rw [and_mask_four]; omega
  have i8 : (v &&& 8 ≠ 0) ↔ (v / 8 % 2 ≠ 0) := by rw [and_mask_eight]; omega
  refine ⟨?_, by rw [printFlags_device], ?_, ?_, by rw [printFlags_exec], ?_⟩
  · rw [if_congr i1 rfl rfl, if_congr i2 rfl rfl, if_congr i4 rfl rfl, if_congr i8 rfl rfl]
    simp only [renderFlagsValue]
    rw [printFlags_device]
    dsimp only
    rw [if_congr (show (v - v % 16 ≠ 0) ↔ (16 ≤ v) by omega) rfl rfl]
    simp [strAssoc]
  · have h := Nat.and_pow_two_sub_one_eq_mod v 4
    norm_num at h
    omega
  · rw [if_congr i1 rfl rfl, if_congr i2 rfl rfl]
    simp only [renderFlagsValue]
    rw [printFlags_exec]
    dsimp only
    rw [if_congr (show (v - v % 4 ≠ 0) ↔ (4 ≤ v) by omega) rfl rfl]
  · have h := Nat.and_pow_two_sub_one_eq_mod v 2
    norm_num at h
    omega

theorem data_mk (l : List Char) : (String.mk l).data = l := rfl

/-- Claim C5: a property query that succeeds with a reported size exceeding
the buffer capacity makes the walk step emit exactly one truncation warning
and still render exactly the lines a nominal success renders — the step
result is a success, not a failure, and the descriptor is not skipped.  The
device warning text cites both the reported size and the capacity. -/
theorem c5_truncated_success {α : Type} (render : PropDescr → α → Option (List String))
    (mkErr : PropDescr → Int → String) (mkWarn : PropDescr → Nat → Nat → String)
    (cap : Nat) (d : PropDescr) (v : α) (s : Nat) (lines : List String)
    (hr : render d v = some lines) (hs : cap < s) :
    tableStep render mkErr mkWarn cap d (Except.ok (v, s)) = some (lines, [mkWarn d s cap]) ∧
    tableStep render mkErr mkWarn cap d (Except.ok (v, cap)) = some (lines, []) ∧
    ∀ di name, natDec s <:+: (truncLineDev di name s cap).data ∧
      natDec cap <:+: (truncLineDev di name s cap).data := by
  refine ⟨?_, ?_, ?_⟩
  · simp [tableStep, hr, hs]
  · simp [tableStep, hr]
  · intro di name
    constructor
    · refine ⟨("device[" ++ natDecStr di ++ "]: Large " ++ name ++ " (").data,
        (" bytes)!  Truncating to " ++ natDecStr cap ++ "!").data, ?_⟩
      simp [truncLineDev, String.data_append, natDecStr, data_mk, List.append_assoc]
    · refine ⟨("device[" ++ natDecStr di ++ "]: Large " ++ name ++ " (" ++ natDecStr s ++
        " bytes)!  Truncating to ").data, ("!" : String).data, ?_⟩
      simp [truncLineDev, String.data_append, natDecStr, data_mk, List.append_assoc]

/-- Witness for C5: the `NAME` descriptor of the device walk with reported
size 70000 against the 65536-byte buffer. -/
theorem c5_truncated_success_witness :
    (65536 : Nat) < 70000 ∧
    tableStep (renderStrDev 0) (fun d e => errLineDev 0 d.name e)
        (fun d s c => truncLineDev 0 d.name s c) 65536 ⟨0x102B, "NAME"⟩
        (Except.ok ("x", 70000)) =
      some ([devLineHead 0 "NAME" ++ "x"], [truncLineDev 0 "NAME" 70000 65536]) :=
  ⟨by omega,
   (c5_truncated_success (renderStrDev 0) (fun d e => errLineDev 0 d.name e)
     (fun d s c => truncLineDev 0 d.name s c) 65536 ⟨0x102B, "NAME"⟩ "x" 70000
     [devLineHead 0 "NAME" ++ "x"] rfl (by omega)).1⟩

/-- Claim C8: the two indexed-lookup properties print the name-table entry
at the returned index followed by the raw index in parentheses when the
index is within the three-entry table, and the `"???"` placeholder with the
raw index otherwise. -/
theorem c8_indexed_lookup (di v : Nat) :
    (∀ h : v < 3,
      renderCacheTypeLine di v =
        "device[" ++ natDecStr di ++ "]: GLOBAL_MEM_CACHE_TYPE         : " ++
          cacheTypes.get ⟨v, h⟩ ++ " (" ++ natDecStr v ++ ")" ∧
      renderLmemTypeLine di v =
        "device[" ++ natDecStr di ++ "]: CL_DEVICE_LOCAL_MEM_TYPE      : " ++
          lmemTypes.get ⟨v, h⟩ ++ " (" ++ natDecStr v ++ ")") ∧
    (3 ≤ v →
      renderCacheTypeLine di v =
        "device[" ++ natDecStr di ++ "]: GLOBAL_MEM_CACHE_TYPE         : " ++ "???" ++
          " (" ++ natDecStr v ++ ")" ∧
      renderLmemTypeLine di v =
        "device[" ++ natDecStr di ++ "]: CL_DEVICE_LOCAL_MEM_TYPE      : " ++ "???" ++
          " (" ++ natDecStr v ++ ")") := by
  constructor
  · intro h
    constructor
    · rw [renderCacheTypeLine, idxName, dif_pos (show v < cacheTypes.length from h)]
    · rw [renderLmemTypeLine, idxName, dif_pos (show v < lmemTypes.length from h)]
  · intro h
    constructor
    · rw [renderCacheTypeLine, idxName, dif_neg (show ¬v < cacheTypes.length by
        show ¬v < 3; omega)]
    · rw [renderLmemTypeLine, idxName, dif_neg (show ¬v < lmemTypes.length by
        show ¬v < 3; omega)]

/-- Witness for C8: an in-bounds index (1, `Read-Only`) and an out-of-bounds
index (5, placeholder). -/
theorem c8_indexed_lookup_witness :
    (1 : Nat) < 3 ∧ (3 : Nat) ≤ 5 ∧
    renderCacheTypeLine 0 1 = "device[0]: GLOBAL_MEM_CACHE_TYPE         : Read-Only (1)" ∧
    renderLmemTypeLine 0 5 = "device[0]: CL_DEVICE_LOCAL_MEM_TYPE      : ??? (5)" := by
  refine ⟨by omega, by omega, ?_, ?_⟩
  · rw [((c8_indexed_lookup 0 1).1 (by omega)).1]
    simp [natDecStr, natDec, natDecAux, digitChar, cacheTypes]
  · rw [((c8_indexed_lookup 0 5).2 (by omega)).2]
    simp [natDecStr, natDec, natDecAux, digitChar]

theorem seqWithSep_succ (render : Nat → List String) (sep : String) (n : Nat) :
    seqWithSep render sep (n + 1) =
      ((List.range n).map (fun i => render i ++ [sep])).flatten ++ render n := by
  unfold seqWithSep
  have hm : (List.range n).map (fun ii => render ii ++ if ii + 1 < n + 1 then [sep] else []) =
      (List.range n).map (fun i => render i ++ [sep]) := by
    apply List.map_congr_left
    intro i hi
    rw [if_pos (by simp at hi; omega)]
  rw [List.range_succ, List.map_append, hm, List.flatten_append]
  simp

theorem seqWithSep_count_aux (render : Nat → List String) (sep : String)
    (hsep : ∀ i, sep ∉ render i) :
    ∀ n, (((List.range n).map (fun i => render i ++ [sep])).flatten).count sep = n := by
  intro n
  induction n with
  | zero => rfl
  | succ n ih =>
    rw [List.range_succ, List.map_append, List.flatten_append, List.count_append, ih]
    simp [List.count_append, List.count_eq_zero.mpr (hsep n)]

theorem seqWithSep_count (render : Nat → List String) (sep : String)
    (hsep : ∀ i, sep ∉ render i) (n : Nat) :
    (seqWithSep render sep n).count sep = n - 1 := by
  cases n with
  | zero => rfl
  | succ n =>
    rw [seqWithSep_succ, List.count_append, seqWithSep_count_aux render sep hsep n,
      List.count_eq_zero.mpr (hsep n)]
    omega

/-- Claim C9: in the composed report, a separator line follows every entity
except the last one of its group: with `n + 1` entities the output is the
renderings of entities `0 .. n-1` each followed by one separator, then the
rendering of entity `n` with no separator after it; consequently, when no
rendering contains the separator line itself, `n` entities yield exactly
`n - 1` separator lines (zero for zero or one entities).  This holds for
the platform loop and the per-platform device loop alike. -/
theorem c9_separators (render : Nat → List String) (n : Nat) :
    displayPlatforms render (n + 1) =
      ((List.range n).map (fun i => render i ++ [platformSepLine])).flatten ++ render n ∧
    platformDevices render (n + 1) =
      ((List.range n).map (fun i => render i ++ [deviceSepLine])).flatten ++ render n ∧
    ((∀ i, platformSepLine ∉ render i) →
      (displayPlatforms render n).count platformSepLine = n - 1) ∧
    ((∀ i, deviceSepLine ∉ render i) →
      (platformDevices render n).count deviceSepLine = n - 1) :=
  ⟨seqWithSep_succ render platformSepLine n, seqWithSep_succ render deviceSepLine n,
   fun hsep => seqWithSep_count render platformSepLine hsep n,
   fun hsep => seqWithSep_count render deviceSepLine hsep n⟩

/-- Witness for C9: three platforms rendering `["p"]` each produce exactly
two separator lines. -/
theorem c9_separators_witness :
    (∀ i : Nat, platformSepLine ∉ (fun _ : Nat => ["p"]) i) ∧
    (displayPlatforms (fun _ : Nat => ["p"]) 3).count platformSepLine = 2 := by
  have hsep : ∀ i : Nat, platformSepLine ∉ (fun _ : Nat => ["p"]) i := by
    intro i
    simp [platformSepLine]
  exact ⟨hsep, (c9_separators (fun _ : Nat => ["p"]) 3).2.2.1 hsep⟩

/-- Claim C10: on an input with no tokens the word-list renderer accesses
`words[0]` of an empty vector — the embedding returns `none` (out of
bounds) — and the device string walk calls it unguarded, so a successful
`EXTENSIONS` query with a whitespace-only value drives the whole walk into
that out-of-bounds access. -/
theorem c10_empty_word_list :
    (∀ (s : String) (w : Nat), splitTokens isWS s.data = [] → print_extensions s w = none) ∧
    devStrWalk 0 65536
      (fun p => if p = 0x1030 then Except.ok ("", 0) else Except.ok ("x", 1)) = none := by
  constructor
  · intro s w h
    rw [print_extensions, h]
    rfl
  · rfl

/-- Witness for C10 at the empty string. -/
theorem c10_empty_word_list_witness :
    splitTokens isWS ("".data) = [] ∧ print_extensions "" 4 = none :=
  ⟨rfl, c10_empty_word_list.1 "" 4 rfl⟩

/-- Claim C2 (code bug): after successful context creation the enumerator
releases the context only on the path that reaches the format loop; the
early returns taken when the format-count query or the format-list query
fails leave the context unreleased, contradicting the unconditional-release
requirement. -/
theorem c2_context_release_paths :
    (print_image_formats_run 0
        ⟨Except.ok (), Except.error (-5), fun _ => Except.ok [], 0⟩).released = false ∧
    (print_image_formats_run 0
        ⟨Except.ok (), Except.ok 0, fun _ => Except.error (-5), 0⟩).released = false ∧
    (print_image_formats_run 0
        ⟨Except.ok (), Except.ok 0, fun _ => Except.ok [], 0⟩).released = true :=
  ⟨rfl, rfl, rfl⟩

end Clinfo
